import Mathlib

/-!
# Verification of the SNES audio subsystem (SPC700 + DSP) emulator core

Shallow embedding of `rsnes/src/spc700.rs` (and the host mailbox routing of
`snesulate/src/device.rs`) into Lean, together with proofs about the behavior
of the embedded operations.

Conventions:
* `u8`/`u16` machine values are represented as `Nat` with explicit `% 256` /
  `% 65536` wrapping where the source wraps.
* `i8`/`i16`/`i32` values are represented as `Int`; Rust's arithmetic right
  shift on signed integers is floor division by a power of two (`Int.fdiv`);
  `as i16` / `clip16` truncation is two's-complement reduction (`trunc16`).
* Arrays indexed by small naturals (`[u8; 4]`, channels, decode buffer, rate
  map) are represented as functions `Nat → _` with pointwise update.
* Rust paths that `panic!`/`todo!`/`unreachable!` are modelled with `Option`:
  `none` is a diverging (panicking) execution.
* The audio backend (`push_sample`) is external; `sound_cycle` returns the
  emitted stereo sample instead of pushing it.
-/

/-- Clamp an `i32` value into the `i16` range (Rust `.clamp(-0x8000, 0x7fff)`,
    also `i16::saturating_add` applied to an exact sum). -/
def clampI16 (x : Int) : Int := max (-0x8000) (min 0x7fff x)

/-- Two's-complement truncation to 16 bits (Rust `as i16` on `i32`/`u16`). -/
def trunc16 (x : Int) : Int :=
  let m := x.emod 65536
  if m < 0x8000 then m else m - 0x10000

/-- Interpret a byte as a signed 8-bit value (Rust `as i8` on `u8`). -/
def toI8 (n : Nat) : Int :=
  let m := n % 256
  if m < 128 then (m : Int) else (m : Int) - 256

/-- Interpret a 16-bit word as a signed 16-bit value (Rust `as i16` on `u16`). -/
def toI16 (n : Nat) : Int :=
  let m := n % 65536
  if m < 32768 then (m : Int) else (m : Int) - 65536

/-- Two's-complement reduction of a signed value to a byte (Rust `as u8`). -/
def toU8 (x : Int) : Nat := (x.emod 256).toNat

/-- Two's-complement reduction of a signed value to 16 bits (Rust `as u16`). -/
def toU16 (x : Int) : Nat := (x.emod 65536).toNat

/-- Arithmetic right shift of a signed value (Rust `>>` on `i16`/`i32`). -/
def sar (x : Int) (k : Nat) : Int := x.fdiv (2 ^ k)

/-- Saturating add of two in-range `i16` values (Rust `i16::saturating_add`). -/
def satAddI16 (a b : Int) : Int := clampI16 (a + b)

/-- `StereoSample::saturating_add32`: clamp the `i32` pair to `i16`, then
    saturating-add componentwise. -/
def satAdd32 (a v : Int × Int) : Int × Int :=
  (satAddI16 a.1 (clampI16 v.1), satAddI16 a.2 (clampI16 v.2))

/-- Pointwise update of a function-represented array. -/
def updateFn {α : Type} (f : Nat → α) (i : Nat) (v : α) : Nat → α :=
  fun j => if j = i then v else f j

/-- The SPC700 status flag bits (module `flags` in the source). -/
def fCARRY : Nat := 0x01
def fZERO : Nat := 0x02
def fINTERRUPT_ENABLE : Nat := 0x04
def fHALF_CARRY : Nat := 0x08
def fBREAK : Nat := 0x10
def fZERO_PAGE : Nat := 0x20
def fOVERFLOW : Nat := 0x40
def fSIGN : Nat := 0x80

/-- The 64-byte boot ROM (`static ROM` in the source). -/
def bootROM : List Nat :=
  [0xCD, 0xEF, 0xBD, 0xE8, 0x00, 0xC6, 0x1D, 0xD0, 0xFC, 0x8F, 0xAA, 0xF4,
   0x8F, 0xBB, 0xF5, 0x78, 0xCC, 0xF4, 0xD0, 0xFB, 0x2F, 0x19, 0xEB, 0xF4,
   0xD0, 0xFC, 0x7E, 0xF4, 0xD0, 0x0B, 0xE4, 0xF5, 0xCB, 0xF4, 0xD7, 0x00,
   0xFC, 0xD0, 0xF3, 0xAB, 0x01, 0x10, 0xEF, 0x7E, 0xF4, 0x10, 0xEB, 0xBA,
   0xF6, 0xDA, 0x00, 0xBA, 0xF4, 0xC4, 0xF4, 0xDD, 0x5D, 0xD0, 0xDB, 0x1F,
   0x00, 0x00, 0xC0, 0xFF]

/-- `calculate_gain_noise_rates` (the 32-entry ADSR/gain/noise rate table):
    for `n < 0x1a`, `(1 << ((0x22-n)/3 - 2)) * ((0x22-n) % 3) + (1 << (0x22-n)/3)`,
    otherwise `0x20 - n`. -/
def adsrGainNoiseRate (n : Nat) : Nat :=
  if n < 0x1a then
    let inv := 0x22 - n
    let x := inv / 3
    let y := inv % 3
    (1 <<< (x - 2)) * y + (1 <<< x)
  else
    0x20 - n

/-- The ADSR envelope phase (`enum AdsrPeriod`). -/
inductive AdsrPeriod where
  | attack
  | decay
  | sustain
  | gain
  | release
deriving DecidableEq, Repr

/-- `AdsrPeriod as usize` (the `#[repr(usize)]` discriminant). -/
def AdsrPeriod.toIdx : AdsrPeriod → Nat
  | .attack => 0
  | .decay => 1
  | .sustain => 2
  | .gain => 3
  | .release => 4

/-- One DSP voice (`struct Channel`). -/
structure Channel where
  volume_l : Int
  volume_r : Int
  pitch : Nat
  source_number : Nat
  dir_addr : Nat
  data_addr : Nat
  adsr0 : Nat
  adsr1 : Nat
  gain_mode : Nat
  gain : Nat
  vx_env : Nat
  vx_out : Nat
  sustain : Nat
  unused0 : Nat
  unused1 : Nat
  unused2 : Nat
  fir_coefficient : Int
  decode_buffer : Nat → Int
  pitch_counter : Nat
  period : AdsrPeriod
  period_rate_map : Nat → Nat
  rate_index : Nat
  end_bit : Bool
  loop_bit : Bool
  last_sample : Int

/-- `Channel::new()`. -/
def Channel.new : Channel where
  volume_l := 0
  volume_r := 0
  pitch := 0
  source_number := 0
  dir_addr := 0
  data_addr := 0
  adsr0 := 0
  adsr1 := 0
  gain_mode := 0
  gain := 0
  vx_env := 0
  vx_out := 0
  sustain := 0
  unused0 := 0
  unused1 := 0
  unused2 := 0
  fir_coefficient := 0
  decode_buffer := fun _ => 0
  pitch_counter := 0
  period := .attack
  period_rate_map := fun _ => 0
  rate_index := 0
  end_bit := false
  loop_bit := false
  last_sample := 0

/-- `Channel::update_gain`; the `Gain` arm is `todo!()` and the `Release` arm
    is a `panic!`, both modelled as `none`. -/
def Channel.update_gain (ch : Channel) (rate : Nat) : Option Channel :=
  match ch.period with
  | .attack =>
    let g := min (min (ch.gain + (if rate = 1 then 1024 else 32)) 0xffff) 0x7ff
    some { ch with
      gain := g
      period := if g > 0x7df then .decay else .attack }
  | .decay | .sustain =>
    let g := ch.gain - (((ch.gain - 1) >>> 8) + 1)
    some { ch with
      gain := g
      period := if ch.period = .decay ∧ g < ch.sustain then .sustain else ch.period }
  | .gain => none
  | .release => none

/-- `Channel::reset`. -/
def Channel.resetChannel (ch : Channel) : Channel :=
  { ch with period := .release, gain := 0 }

/-- The DSP state (`struct Dsp`). -/
structure Dsp where
  echo_delay : Nat
  echo_index : Nat
  source_dir_addr : Nat
  echo_data_addr : Nat
  channels : Nat → Channel
  pitch_modulation : Nat
  echo_feedback : Int
  noise : Nat
  echo : Nat
  fade_in : Nat
  fade_out : Nat
  flags : Nat
  master_volume_l : Int
  master_volume_r : Int
  echo_volume_l : Int
  echo_volume_r : Int
  unused : Nat
  echo_buffer_offset : Nat
  fir_buffer : Nat → Int × Int
  fir_buffer_index : Nat

/-- `Dsp::new()`. -/
def Dsp.new : Dsp where
  echo_delay := 1
  echo_index := 1
  source_dir_addr := 0
  echo_data_addr := 0
  channels := fun _ => Channel.new
  pitch_modulation := 0
  echo_feedback := 0
  noise := 0
  echo := 0
  fade_in := 0
  fade_out := 0
  flags := 0xe0
  master_volume_l := 0
  master_volume_r := 0
  echo_volume_l := 0
  echo_volume_r := 0
  unused := 0
  echo_buffer_offset := 0
  fir_buffer := fun _ => (0, 0)
  fir_buffer_index := 0

/-- The whole audio subsystem state (`struct Spc700`); the audio backend is
    external and omitted, `Cycles` is a 64-bit counter whose overflow is
    unreachable so it is represented as `Nat`. -/
structure Spc700 where
  mem : Nat → Nat
  input : Nat → Nat
  output : Nat → Nat
  dsp : Dsp
  a : Nat
  x : Nat
  y : Nat
  sp : Nat
  status : Nat
  pc : Nat
  timer_max : Nat → Nat
  timers : Nat → Nat
  timer_enable : Nat
  counters : Nat → Nat
  dispatch_counter : Nat
  master_cycles : Nat
  cycles_ahead : Nat
  timing_proportion : Nat × Nat

/-- `Spc700::new`: power-on state (memory zero except `mem[0xf0] = 0x80`);
    the NTSC/PAL `(numerator, denominator)` pair is a construction parameter. -/
def Spc700.new (tp : Nat × Nat) : Spc700 where
  mem := fun addr => if addr = 0xf0 then 0x80 else 0
  input := fun _ => 0
  output := fun _ => 0
  dsp := Dsp.new
  a := 0
  x := 0
  y := 0
  sp := 0
  status := 0
  pc := 0xffc0
  timer_max := fun _ => 0
  timers := fun _ => 0
  timer_enable := 0
  counters := fun _ => 0
  dispatch_counter := 0
  master_cycles := 0
  cycles_ahead := 7
  timing_proportion := tp

/-- `Spc700::reset`. -/
def Spc700.reset (s : Spc700) : Spc700 :=
  { s with
    mem := updateFn s.mem 0xf0 0x80
    input := fun _ => 0
    output := fun _ => 0
    a := 0
    x := 0
    y := 0
    sp := 0
    pc := 0xffc0
    status := 0 }

/-- `Spc700::is_rom_mapped`. -/
def Spc700.is_rom_mapped (s : Spc700) : Bool := s.mem 0xf0 &&& 0x80 > 0

/-- `Spc700::read_dsp_register`; `todo!` and `unreachable!` paths (and the
    out-of-bounds channel index for `id ≥ 0x80`) are `none`. -/
def Spc700.read_dsp_register (s : Spc700) (id : Nat) : Option Nat :=
  let rid := id &&& 0x8f
  if rid &&& 0xe ≠ 0xc then
    if id ≥ 0x80 then none else
    let ch := s.dsp.channels (id >>> 4)
    if rid = 0 then some (toU8 ch.volume_l)
    else if rid = 1 then some (toU8 ch.volume_r)
    else if rid = 2 then some (ch.pitch &&& 0xff)
    else if rid = 3 then some (ch.pitch >>> 8)
    else if rid = 4 then some ch.source_number
    else if rid = 5 then some ch.adsr0
    else if rid = 6 then some ch.adsr1
    else if rid = 7 then some ch.gain_mode
    else if rid = 8 then some ch.vx_env
    else if rid = 9 then some ch.vx_out
    else if rid = 10 then some ch.unused0
    else if rid = 11 then some ch.unused1
    else if rid = 14 then some ch.unused2
    else if rid = 15 then some (toU8 ch.fir_coefficient)
    else none
  else
    if id = 0x0c then some (toU8 s.dsp.master_volume_l)
    else if id = 0x1c then some (toU8 s.dsp.master_volume_r)
    else if id = 0x2c then some (toU8 s.dsp.echo_volume_l)
    else if id = 0x3c then some (toU8 s.dsp.echo_volume_r)
    else if id = 0x4c then some s.dsp.fade_in
    else if id = 0x5c then some s.dsp.fade_out
    else if id = 0x6c then some s.dsp.flags
    else if id = 0x0d then some (toU8 s.dsp.echo_feedback)
    else if id = 0x1d then some s.dsp.unused
    else if id = 0x2d then some s.dsp.pitch_modulation
    else if id = 0x3d then some s.dsp.noise
    else if id = 0x4d then some s.dsp.echo
    else if id = 0x5d then some (s.dsp.source_dir_addr >>> 8)
    else if id = 0x6d then some (s.dsp.echo_data_addr >>> 8)
    else if id = 0x7d then some (s.dsp.echo_delay >>> 9)
    else none

/-- The per-voice arm of `Spc700::write_dsp_register` (the register file rows
    with low nibble not `$C`/`$D`): update one channel register; `rid` values
    `12`/`13` are excluded by the caller and hit `unreachable!`, modelled as
    `none`.  `sda` is the current source-directory base. -/
def writeDspChannelReg (sda : Nat) (ch : Channel) (rid val : Nat) : Option Channel :=
  if rid = 0 then some { ch with volume_l := toI8 val }
  else if rid = 1 then some { ch with volume_r := toI8 val }
  else if rid = 2 then some { ch with pitch := (ch.pitch &&& 0x3f00) ||| val }
  else if rid = 3 then some { ch with pitch := (ch.pitch &&& 0xff) ||| ((val &&& 0x3f) <<< 8) }
  else if rid = 4 then
    some { ch with
      source_number := val
      dir_addr := (sda + (val <<< 2)) % 65536 }
  else if rid = 5 then
    some { ch with
      adsr0 := val
      period_rate_map :=
        updateFn (updateFn ch.period_rate_map AdsrPeriod.attack.toIdx
            (adsrGainNoiseRate (((val &&& 0xf) <<< 1) ||| 1)))
          AdsrPeriod.decay.toIdx
          (adsrGainNoiseRate (((val &&& 0x70) >>> 3) ||| 0x10)) }
  else if rid = 6 then
    some { ch with
      adsr1 := val
      period_rate_map :=
        updateFn ch.period_rate_map AdsrPeriod.sustain.toIdx
          (adsrGainNoiseRate (val &&& 0x1f))
      sustain := ((val >>> 5) + 1) * 0x100 }
  else if rid = 7 then some { ch with gain_mode := val }
  else if rid = 8 then some { ch with vx_env := val }
  else if rid = 9 then some { ch with vx_out := val }
  else if rid = 10 then some { ch with unused0 := val }
  else if rid = 11 then some { ch with unused1 := val }
  else if rid = 14 then some { ch with unused2 := val }
  else if rid = 15 then some { ch with fir_coefficient := toI8 val }
  else none

/-- `Spc700::write_dsp_register`; `todo!`/`unreachable!` paths (and the
    out-of-bounds channel index for `id ≥ 0x80`) are `none`. -/
def Spc700.write_dsp_register (s : Spc700) (id val : Nat) : Option Spc700 :=
  let rid := id &&& 0x8f
  if rid &&& 0xe ≠ 0xc then
    if id ≥ 0x80 then none else
    (writeDspChannelReg s.dsp.source_dir_addr (s.dsp.channels (id >>> 4)) rid val).map
      (fun ch' =>
        { s with dsp := { s.dsp with
            channels := updateFn s.dsp.channels (id >>> 4) ch' } })
  else
    if id = 0x0c then some { s with dsp := { s.dsp with master_volume_l := toI8 val } }
    else if id = 0x1c then some { s with dsp := { s.dsp with master_volume_r := toI8 val } }
    else if id = 0x2c then some { s with dsp := { s.dsp with echo_volume_l := toI8 val } }
    else if id = 0x3c then some { s with dsp := { s.dsp with echo_volume_r := toI8 val } }
    else if id = 0x4c then some { s with dsp := { s.dsp with fade_in := val } }
    else if id = 0x5c then some { s with dsp := { s.dsp with fade_out := val } }
    else if id = 0x6c then some { s with dsp := { s.dsp with flags := val } }
    else if id = 0x0d then some { s with dsp := { s.dsp with echo_feedback := toI8 val } }
    else if id = 0x1d then some { s with dsp := { s.dsp with unused := val } }
    else if id = 0x2d then some { s with dsp := { s.dsp with pitch_modulation := val &&& 0xfe } }
    else if id = 0x3d then some { s with dsp := { s.dsp with noise := val } }
    else if id = 0x4d then some { s with dsp := { s.dsp with echo := val } }
    else if id = 0x5d then
      let sda := val <<< 8
      some { s with dsp := { s.dsp with
        source_dir_addr := sda
        channels := fun j =>
          { s.dsp.channels j with
            dir_addr := (sda + ((s.dsp.channels j).source_number <<< 2)) % 65536 } } }
    else if id = 0x6d then some { s with dsp := { s.dsp with echo_data_addr := val <<< 8 } }
    else if id = 0x7d then some { s with dsp := { s.dsp with echo_delay := max 1 ((val &&& 15) <<< 9) } }
    else none

/-- `Spc700::read`: a CPU read, returning the byte read and the state after
    the read (reads at `$FD-$FF` take-and-clear a timer counter); `todo!`
    paths are `none`.  The match arms are tried in source order. -/
def Spc700.read (s : Spc700) (addr : Nat) : Option (Nat × Spc700) :=
  if addr = 0xf3 then
    (s.read_dsp_register (s.mem 0xf2)).map (fun v => (v, s))
  else if 0xf4 ≤ addr ∧ addr ≤ 0xf7 then
    some (s.input (addr - 0xf4), s)
  else if 0xfd ≤ addr ∧ addr ≤ 0xff then
    some (s.counters (addr - 0xfd), { s with counters := updateFn s.counters (addr - 0xfd) 0 })
  else if addr = 0xf1 ∨ (0xf8 ≤ addr ∧ addr ≤ 0xff) then
    none
  else if 0xffc0 ≤ addr ∧ addr ≤ 0xffff ∧ s.is_rom_mapped then
    some (bootROM.getD (addr &&& 0x3f) 0, s)
  else
    some (s.mem addr, s)

/-- `Spc700::write`: a CPU write; `todo!` paths are `none`.  The match arms
    are tried in source order. -/
def Spc700.write (s : Spc700) (addr val : Nat) : Option Spc700 :=
  if addr = 0xf1 then
    let input1 := if val &&& 0x10 > 0
      then fun j => if j < 2 then 0 else s.input j else s.input
    let input2 := if val &&& 0x20 > 0
      then fun j => if 2 ≤ j ∧ j < 4 then 0 else input1 j else input1
    let active := val &&& (s.timer_enable ^^^ 0xff)
    some { s with
      input := input2
      timer_enable := val &&& 7
      counters := fun i => if i < 3 ∧ active &&& (1 <<< i) > 0 then 0 else s.counters i
      timers := fun i => if i < 3 ∧ active &&& (1 <<< i) > 0 then 0 else s.timers i }
  else if addr = 0xf3 then
    s.write_dsp_register (s.mem 0xf2) val
  else if 0xf4 ≤ addr ∧ addr ≤ 0xf7 then
    some { s with output := updateFn s.output (addr - 0xf4) val }
  else if addr = 0xfa ∨ addr = 0xfb ∨ addr = 0xfc then
    some { s with timer_max := updateFn s.timer_max (((addr ^^^ 0xffff) &&& 3) ^^^ 1) val }
  else if 0xf8 ≤ addr ∧ addr ≤ 0xff then
    none
  else
    some { s with mem := updateFn s.mem addr val }

/-- Host-side access of `Device::access` at address-bus-B `$2140-$2143`
    (`snesulate/src/device.rs`): a host read returns `spc.output`, a host
    write stores into `spc.input`, both indexed by `addr & 0b11`. -/
def Device.hostReadPort (s : Spc700) (addr : Nat) : Nat :=
  s.output (addr &&& 0b11)

/-- Host-side write of `Device::access` at `$2140-$2143`: stores the byte
    into `spc.input[addr & 0b11]`. -/
def Device.hostWritePort (s : Spc700) (addr val : Nat) : Spc700 :=
  { s with input := updateFn s.input (addr &&& 0b11) val }


/-- `set_status`: set or clear a flag bit depending on a condition. -/
def setStatus (st : Nat) (cond : Bool) (flag : Nat) : Nat :=
  if cond then st ||| flag else st &&& (flag ^^^ 0xff)

/-- `update_nz8`: set Zero and Sign from an 8-bit result. -/
def updateNz8 (st val : Nat) : Nat :=
  if val > 0 then (st &&& ((fZERO ||| fSIGN) ^^^ 0xff)) ||| (val &&& fSIGN)
  else (st &&& (fSIGN ^^^ 0xff)) ||| fZERO

/-- `Spc700::adc` as a pure function of the status byte and the two operands:
    returns the new status and the 8-bit result. -/
def adc8 (st a b : Nat) : Nat × Nat :=
  let c := st &&& fCARRY
  let ov1 := decide (a + b ≥ 256)
  let r1 := (a + b) % 256
  let ov2 := decide (r1 + c ≥ 256)
  let res := (r1 + c) % 256
  let st1 := setStatus st ((a &&& 0x80 == b &&& 0x80) && (b &&& 0x80 != res &&& 0x80)) fOVERFLOW
  let st2 := setStatus st1 (decide ((a &&& 15) + (b &&& 15) + c > 15)) fHALF_CARRY
  let st3 := setStatus st2 (ov1 || ov2) fCARRY
  (updateNz8 st3 res, res)

/-- The SBC opcode `0xa8` computes `adc(a, !val)`; `!val` is the bitwise
    complement of the operand byte. -/
def not8 (v : Nat) : Nat := v ^^^ 0xff

/-- The `DIV` opcode (`0x9e`) arm of `dispatch_instruction`: on `X = 0` the
    internal quotient is `0xffff` and the remainder is `A`. -/
def Spc700.divInstr (s : Spc700) : Spc700 :=
  let ya := s.a + 256 * s.y
  let rdiv := if s.x = 0 then 0xffff else ya / s.x
  let rmod := if s.x = 0 then s.a else (ya % s.x) % 256
  let st1 := setStatus s.status (decide (rdiv > 0xff)) fOVERFLOW
  let st2 := setStatus st1 (decide (s.x &&& 15 ≤ s.y &&& 15)) fHALF_CARRY
  let a1 := rdiv &&& 0xff
  { s with a := a1, y := rmod, status := updateNz8 st2 a1 }

/-- `Spc700::tick`: add `n * timing_proportion.1` master cycles (the second
    component of the Rust tuple) to the accumulator. -/
def Spc700.tick (s : Spc700) (n : Nat) : Spc700 :=
  { s with master_cycles := s.master_cycles + n * s.timing_proportion.2 }

/-- `Spc700::refresh`: divide the accumulator by `timing_proportion.0` (the
    first component of the Rust tuple), keep the remainder, and run
    `run_cycle` once per quotient unit.  `run_cycle` dispatches arbitrary
    SPC700 instructions, so it is taken as a parameter here. -/
def Spc700.refresh (run_cycle : Spc700 → Spc700) (s : Spc700) : Spc700 :=
  let cycles := s.master_cycles / s.timing_proportion.1
  run_cycle^[cycles] { s with master_cycles := s.master_cycles % s.timing_proportion.1 }

/-- The 512-entry Gaussian interpolation table
    (`GAUSS_INTERPOLATION_POINTS`). -/
def gaussTable : List Int :=
  [
   0x000, 0x000, 0x000, 0x000, 0x000, 0x000, 0x000, 0x000, 0x000, 0x000, 0x000, 0x000,
   0x000, 0x000, 0x000, 0x000, 0x001, 0x001, 0x001, 0x001, 0x001, 0x001, 0x001, 0x001,
   0x001, 0x001, 0x001, 0x002, 0x002, 0x002, 0x002, 0x002, 0x002, 0x002, 0x003, 0x003,
   0x003, 0x003, 0x003, 0x004, 0x004, 0x004, 0x004, 0x004, 0x005, 0x005, 0x005, 0x005,
   0x006, 0x006, 0x006, 0x006, 0x007, 0x007, 0x007, 0x008, 0x008, 0x008, 0x009, 0x009,
   0x009, 0x00A, 0x00A, 0x00A, 0x00B, 0x00B, 0x00B, 0x00C, 0x00C, 0x00D, 0x00D, 0x00E,
   0x00E, 0x00F, 0x00F, 0x00F, 0x010, 0x010, 0x011, 0x011, 0x012, 0x013, 0x013, 0x014,
   0x014, 0x015, 0x015, 0x016, 0x017, 0x017, 0x018, 0x018, 0x019, 0x01A, 0x01B, 0x01B,
   0x01C, 0x01D, 0x01D, 0x01E, 0x01F, 0x020, 0x020, 0x021, 0x022, 0x023, 0x024, 0x024,
   0x025, 0x026, 0x027, 0x028, 0x029, 0x02A, 0x02B, 0x02C, 0x02D, 0x02E, 0x02F, 0x030,
   0x031, 0x032, 0x033, 0x034, 0x035, 0x036, 0x037, 0x038, 0x03A, 0x03B, 0x03C, 0x03D,
   0x03E, 0x040, 0x041, 0x042, 0x043, 0x045, 0x046, 0x047, 0x049, 0x04A, 0x04C, 0x04D,
   0x04E, 0x050, 0x051, 0x053, 0x054, 0x056, 0x057, 0x059, 0x05A, 0x05C, 0x05E, 0x05F,
   0x061, 0x063, 0x064, 0x066, 0x068, 0x06A, 0x06B, 0x06D, 0x06F, 0x071, 0x073, 0x075,
   0x076, 0x078, 0x07A, 0x07C, 0x07E, 0x080, 0x082, 0x084, 0x086, 0x089, 0x08B, 0x08D,
   0x08F, 0x091, 0x093, 0x096, 0x098, 0x09A, 0x09C, 0x09F, 0x0A1, 0x0A3, 0x0A6, 0x0A8,
   0x0AB, 0x0AD, 0x0AF, 0x0B2, 0x0B4, 0x0B7, 0x0BA, 0x0BC, 0x0BF, 0x0C1, 0x0C4, 0x0C7,
   0x0C9, 0x0CC, 0x0CF, 0x0D2, 0x0D4, 0x0D7, 0x0DA, 0x0DD, 0x0E0, 0x0E3, 0x0E6, 0x0E9,
   0x0EC, 0x0EF, 0x0F2, 0x0F5, 0x0F8, 0x0FB, 0x0FE, 0x101, 0x104, 0x107, 0x10B, 0x10E,
   0x111, 0x114, 0x118, 0x11B, 0x11E, 0x122, 0x125, 0x129, 0x12C, 0x130, 0x133, 0x137,
   0x13A, 0x13E, 0x141, 0x145, 0x148, 0x14C, 0x150, 0x153, 0x157, 0x15B, 0x15F, 0x162,
   0x166, 0x16A, 0x16E, 0x172, 0x176, 0x17A, 0x17D, 0x181, 0x185, 0x189, 0x18D, 0x191,
   0x195, 0x19A, 0x19E, 0x1A2, 0x1A6, 0x1AA, 0x1AE, 0x1B2, 0x1B7, 0x1BB, 0x1BF, 0x1C3,
   0x1C8, 0x1CC, 0x1D0, 0x1D5, 0x1D9, 0x1DD, 0x1E2, 0x1E6, 0x1EB, 0x1EF, 0x1F3, 0x1F8,
   0x1FC, 0x201, 0x205, 0x20A, 0x20F, 0x213, 0x218, 0x21C, 0x221, 0x226, 0x22A, 0x22F,
   0x233, 0x238, 0x23D, 0x241, 0x246, 0x24B, 0x250, 0x254, 0x259, 0x25E, 0x263, 0x267,
   0x26C, 0x271, 0x276, 0x27B, 0x280, 0x284, 0x289, 0x28E, 0x293, 0x298, 0x29D, 0x2A2,
   0x2A6, 0x2AB, 0x2B0, 0x2B5, 0x2BA, 0x2BF, 0x2C4, 0x2C9, 0x2CE, 0x2D3, 0x2D8, 0x2DC,
   0x2E1, 0x2E6, 0x2EB, 0x2F0, 0x2F5, 0x2FA, 0x2FF, 0x304, 0x309, 0x30E, 0x313, 0x318,
   0x31D, 0x322, 0x326, 0x32B, 0x330, 0x335, 0x33A, 0x33F, 0x344, 0x349, 0x34E, 0x353,
   0x357, 0x35C, 0x361, 0x366, 0x36B, 0x370, 0x374, 0x379, 0x37E, 0x383, 0x388, 0x38C,
   0x391, 0x396, 0x39B, 0x39F, 0x3A4, 0x3A9, 0x3AD, 0x3B2, 0x3B7, 0x3BB, 0x3C0, 0x3C5,
   0x3C9, 0x3CE, 0x3D2, 0x3D7, 0x3DC, 0x3E0, 0x3E5, 0x3E9, 0x3ED, 0x3F2, 0x3F6, 0x3FB,
   0x3FF, 0x403, 0x408, 0x40C, 0x410, 0x415, 0x419, 0x41D, 0x421, 0x425, 0x42A, 0x42E,
   0x432, 0x436, 0x43A, 0x43E, 0x442, 0x446, 0x44A, 0x44E, 0x452, 0x455, 0x459, 0x45D,
   0x461, 0x465, 0x468, 0x46C, 0x470, 0x473, 0x477, 0x47A, 0x47E, 0x481, 0x485, 0x488,
   0x48C, 0x48F, 0x492, 0x496, 0x499, 0x49C, 0x49F, 0x4A2, 0x4A6, 0x4A9, 0x4AC, 0x4AF,
   0x4B2, 0x4B5, 0x4B7, 0x4BA, 0x4BD, 0x4C0, 0x4C3, 0x4C5, 0x4C8, 0x4CB, 0x4CD, 0x4D0,
   0x4D2, 0x4D5, 0x4D7, 0x4D9, 0x4DC, 0x4DE, 0x4E0, 0x4E3, 0x4E5, 0x4E7, 0x4E9, 0x4EB,
   0x4ED, 0x4EF, 0x4F1, 0x4F3, 0x4F5, 0x4F6, 0x4F8, 0x4FA, 0x4FB, 0x4FD, 0x4FF, 0x500,
   0x502, 0x503, 0x504, 0x506, 0x507, 0x508, 0x50A, 0x50B, 0x50C, 0x50D, 0x50E, 0x50F,
   0x510, 0x511, 0x511, 0x512, 0x513, 0x514, 0x514, 0x515, 0x516, 0x516, 0x517, 0x517,
   0x517, 0x518, 0x518, 0x518, 0x518, 0x518, 0x519, 0x519]

/-- Indexing into the Gaussian table. -/
def gauss (i : Nat) : Int := gaussTable.getD i 0

/-- One BRR nibble through shift and filter, clamped to signed 16 bits
    (the body of the nibble loop in `sound_cycle`, before the 15-bit fold).
    `old` is `decode_buffer[index + 2]` (the previous sample `s[n-1]`) and
    `older` is `decode_buffer[index + 1]` (`s[n-2]`). -/
def brrFilterClamped (header nibble : Nat) (old older : Int) : Int :=
  let sample : Int := if nibble &&& 8 > 0 then toI8 (nibble ||| 0xf0) else toI8 nibble
  let shift := header >>> 4
  let sample : Int :=
    if shift = 0 then sar sample 1
    else if shift ≤ 12 then sample * 2 ^ (shift - 1)
    else sar sample 3 * 2048
  let filt := header &&& 0b1100
  let v : Int :=
    if filt = 0 then sample
    else if filt = 0b0100 then sample + old + sar (-old) 4
    else if filt = 0b1000 then sample + old * 2 + sar (-3 * old) 5 - older + sar older 4
    else sample + old * 2 + sar (-13 * old) 6 - older + sar (older * 3) 4
  clampI16 v

/-- The decoded BRR sample that is stored into the decode buffer: the
    clamped filter output folded into the 15-bit hardware representation
    (documented by nocash FullSNES): values above `0x3fff` have `0x8000`
    subtracted, values below `-0x4000` have `0x8000` added. -/
def decodeBrrSample (header nibble : Nat) (old older : Int) : Int :=
  let sample := brrFilterClamped header nibble old older
  if sample > 0x3fff then sample - 0x8000
  else if sample < -0x4000 then sample + 0x8000
  else sample

/-- Store one decoded nibble at `decode_buffer[index + 3]`. -/
def brrNibbleWrite (header : Nat) (buf : Nat → Int) (index nibble : Nat) : Nat → Int :=
  updateFn buf (index + 3) (decodeBrrSample header nibble (buf (index + 2)) (buf (index + 1)))

/-- The byte loop of the BRR block decode: each byte holds two nibbles
    (high first); the data address advances one byte per iteration. -/
def brrBytes (mem : Nat → Nat) (header : Nat) :
    List Nat → Nat → (Nat → Int) → Nat × (Nat → Int)
  | [], da, buf => (da, buf)
  | bid :: rest, da, buf =>
    let byte := mem da
    let index := bid <<< 1
    let buf1 := brrNibbleWrite header buf index (byte >>> 4)
    let buf2 := brrNibbleWrite header buf1 (index ||| 1) (byte &&& 0xf)
    brrBytes mem header rest ((da + 1) % 65536) buf2

/-- Block advancement on pitch-counter overflow: loop-pointer reload when the
    previous block had the end flag, history shift, header read and 16-nibble
    decode. -/
def brrAdvance (mem : Nat → Nat) (ch0 : Channel) : Channel :=
  let ch :=
    if ch0.end_bit then
      let ch1 := { ch0 with
        data_addr := mem ((ch0.dir_addr + 2) % 65536)
          + 256 * mem ((ch0.dir_addr + 3) % 65536) }
      if ¬ch1.loop_bit then { ch1 with period := .release, gain := 0 } else ch1
    else ch0
  let buf : Nat → Int := fun j => if j < 3 then ch.decode_buffer (j + 16) else ch.decode_buffer j
  let header := mem ch.data_addr
  let res := brrBytes mem header [0, 1, 2, 3, 4, 5, 6, 7] ((ch.data_addr + 1) % 65536) buf
  { ch with
    end_bit := decide (header &&& 1 > 0)
    loop_bit := decide (header &&& 2 > 0)
    data_addr := res.1
    decode_buffer := res.2 }

/-- Gaussian interpolation of the decode buffer at the current pitch
    counter (the four-tap sum in `sound_cycle`, with the hardware 16-bit
    truncation between the third and fourth tap). -/
def interpolate (pitch_counter : Nat) (buf : Nat → Int) : Int :=
  let ii := (pitch_counter >>> 4) &&& 0xff
  let bi := pitch_counter >>> 12
  let s1 := sar (gauss (0xff - ii) * buf bi) 10
  let s2 := s1 + sar (gauss (0x1ff - ii) * buf (bi + 1)) 10
  let s3 := s2 + sar (gauss (0x100 + ii) * buf (bi + 2)) 10
  let s4 := trunc16 s3
  let s5 := s4 + sar (gauss ii * buf (bi + 3)) 10
  sar (clampI16 s5) 1

/-- The envelope part of the per-voice processing in `sound_cycle`: the
    Release fixed decrement, the direct-gain path, and the rate-counter tick
    that invokes `update_gain`. -/
def envelopeStep (ch : Channel) : Option Channel :=
  if ch.period = .release then
    let ng := (ch.gain + 65536 - 8) % 65536
    some { ch with gain := if ch.gain < 8 ∨ ng > 0x7ff then 0 else ng }
  else
    let rate := ch.period_rate_map ch.period.toIdx
    if ch.gain_mode &&& 0x80 = 0 ∧ ch.adsr0 &&& 0x80 = 0 then
      some { ch with gain := ch.gain_mode &&& 0x7f }
    else if rate > 0 then
      let ri := (ch.rate_index + 1) % 65536
      if ri ≥ rate then Channel.update_gain { ch with rate_index := 0 } rate
      else some { ch with rate_index := ri }
    else some ch

/-- Key-on / key-off handling at the head of the per-voice loop. -/
def keyPhase (mem : Nat → Nat) (fade_in fade_out i : Nat) (ch : Channel) : Channel :=
  if fade_out &&& (1 <<< i) > 0 then { ch with period := .release }
  else if fade_in &&& (1 <<< i) > 0 then
    { ch with
      data_addr := mem ch.dir_addr + 256 * mem ((ch.dir_addr + 1) % 65536)
      loop_bit := false
      end_bit := false
      gain := 0
      decode_buffer := fun _ => 0
      period := if ch.adsr0 &&& 0x80 > 0 then .attack else .gain }
  else ch

/-- The front half of one voice of the per-voice loop of `sound_cycle`: key
    handling, pitch step (with optional pitch modulation by the previous
    voice output `last`), and BRR block advancement on pitch-counter
    overflow. -/
def channelPre (mem : Nat → Nat) (pmod fade_in fade_out i : Nat) (last : Int)
    (ch0 : Channel) : Channel :=
  let ch1 := keyPhase mem fade_in fade_out i ch0
  let step :=
    if pmod &&& (1 <<< i) > 0 ∧ i ≠ 0 then
      toU16 (sar ((ch1.pitch : Int) * (sar last 4 + 0x400)) 10)
    else ch1.pitch
  let sum := ch1.pitch_counter + step
  let ch2 := { ch1 with pitch_counter := sum % 65536 }
  if sum ≥ 65536 then brrAdvance mem ch2 else ch2

/-- One voice of the per-voice loop of `sound_cycle`: `channelPre`, then
    interpolation, envelope, and the per-voice output sample. -/
def channelStep (mem : Nat → Nat) (pmod fade_in fade_out i : Nat) (last : Int)
    (ch0 : Channel) : Option (Channel × Int) :=
  let ch3 := channelPre mem pmod fade_in fade_out i last ch0
  let interpSample := interpolate ch3.pitch_counter ch3.decode_buffer
  match envelopeStep ch3 with
  | none => none
  | some ch4 =>
    let sample := trunc16 (sar (interpSample * (ch4.gain : Int)) 11)
    some ({ ch4 with
      last_sample := sample
      vx_env := (ch4.gain >>> 4) % 256
      vx_out := toU8 (sar sample 7) }, sample)

/-- The per-voice loop of `sound_cycle` over the channel indices, threading
    the previous voice output (for pitch modulation) and the saturating
    stereo voice accumulator. -/
def runChannels (mem : Nat → Nat) (pmod fade_in fade_out : Nat) :
    List Nat → (Nat → Channel) → Int → Int × Int →
    Option ((Nat → Channel) × (Int × Int))
  | [], chans, _, acc => some (chans, acc)
  | i :: rest, chans, last, acc =>
    match channelStep mem pmod fade_in fade_out i last (chans i) with
    | none => none
    | some (ch', smp) =>
      runChannels mem pmod fade_in fade_out rest (updateFn chans i ch') smp
        (satAdd32 acc (sar (smp * ch'.volume_l) 6, sar (smp * ch'.volume_r) 6))

/-- The 8-tap FIR loop of the echo unit, with the hardware 16-bit clip of
    the accumulator after the seventh tap (`i == 6`). -/
def firLoop (firBuf : Nat → Int × Int) (firIdx : Nat) (coef : Nat → Int) :
    List Nat → Int × Int → Int × Int
  | [], acc => acc
  | i :: rest, acc =>
    let fv := firBuf ((firIdx + i + 1) &&& 7)
    let acc1 := (acc.1 + sar (fv.1 * coef i) 6, acc.2 + sar (fv.2 * coef i) 6)
    firLoop firBuf firIdx coef rest (if i = 6 then (trunc16 acc1.1, trunc16 acc1.2) else acc1)

/-- The echo-feedback voice sum: saturating sum over echo-enabled voices of
    `(volume * last_sample) >> 6`. -/
def echoVoiceSum (chans : Nat → Channel) (echoMask : Nat) :
    List Nat → Int × Int → Int × Int
  | [], acc => acc
  | i :: rest, acc =>
    echoVoiceSum chans echoMask rest
      (if echoMask &&& (1 <<< i) > 0 then
        satAdd32 acc
          (sar ((chans i).volume_l * (chans i).last_sample) 6,
           sar ((chans i).volume_r * (chans i).last_sample) 6)
      else acc)

/-- `read16_norom`: a little-endian 16-bit read straight from RAM. -/
def read16_norom (mem : Nat → Nat) (addr : Nat) : Nat :=
  mem addr + 256 * mem ((addr + 1) % 65536)

/-- `write16_norom`: a little-endian 16-bit write straight to RAM. -/
def write16_norom (mem : Nat → Nat) (addr val : Nat) : Nat → Nat :=
  updateFn (updateFn mem addr (val % 256)) ((addr + 1) % 65536) ((val >>> 8) % 256)

/-- `Spc700::sound_cycle`: one full DSP sample cycle.  Returns the new state
    and the stereo sample handed to the audio backend; `none` models a
    panicking path (the `todo!` of gain mode inside `update_gain`).
    `echo_index -= 1` is a `u16` subtraction, modelled with wraparound. -/
def Spc700.sound_cycle (s : Spc700) : Option (Spc700 × (Int × Int)) :=
  let fr := s.dispatch_counter &&& 0x3f > 0
  let fade_in := if fr then s.dsp.fade_in else 0
  let fade_out := if fr then s.dsp.fade_out else 0
  let dspFadeIn := if fr then s.dsp.fade_in &&& s.dsp.fade_out else s.dsp.fade_in
  let chans0 := if s.dsp.flags &&& 0x80 > 0
    then fun j => (s.dsp.channels j).resetChannel
    else s.dsp.channels
  match runChannels s.mem s.dsp.pitch_modulation fade_in fade_out
      [0, 1, 2, 3, 4, 5, 6, 7] chans0 0 (0, 0) with
  | none => none
  | some (chans1, voiceAcc) =>
    let masterL := clampI16 (sar (voiceAcc.1 * s.dsp.master_volume_l) 7)
    let masterR := clampI16 (sar (voiceAcc.2 * s.dsp.master_volume_r) 7)
    let echo_addr := (s.dsp.echo_data_addr + s.dsp.echo_buffer_offset) % 65536
    let offset1 := (s.dsp.echo_buffer_offset + 4) % 65536
    let firBuf1 := updateFn s.dsp.fir_buffer s.dsp.fir_buffer_index
      (sar (toI16 (read16_norom s.mem echo_addr)) 1,
       sar (toI16 (read16_norom s.mem ((echo_addr + 2) % 65536))) 1)
    let firAcc := firLoop firBuf1 s.dsp.fir_buffer_index
      (fun i => (chans1 i).fir_coefficient) [0, 1, 2, 3, 4, 5, 6, 7] (0, 0)
    let firIdx1 := (s.dsp.fir_buffer_index + 1) &&& 7
    let filtL := clampI16 firAcc.1
    let filtR := clampI16 firAcc.2
    let outL := satAddI16 masterL (clampI16 (sar (filtL * s.dsp.echo_volume_l) 7))
    let outR := satAddI16 masterR (clampI16 (sar (filtR * s.dsp.echo_volume_r) 7))
    let mem1 :=
      if s.dsp.flags &&& 0x20 = 0 then
        let es := echoVoiceSum chans1 s.dsp.echo [0, 1, 2, 3, 4, 5, 6, 7] (0, 0)
        let es1 := satAdd32 es
          (sar (filtL * s.dsp.echo_feedback) 7, sar (filtR * s.dsp.echo_feedback) 7)
        let evenL := toI16 (toU16 es1.1 &&& 0xfffe)
        let evenR := toI16 (toU16 es1.2 &&& 0xfffe)
        write16_norom (write16_norom s.mem echo_addr (toU16 evenL))
          ((echo_addr + 2) % 65536) (toU16 evenR)
      else s.mem
    let echoIdx1 := (s.dsp.echo_index + 65535) % 65536
    some ({ s with
      mem := mem1
      dsp := { s.dsp with
        fade_in := dspFadeIn
        channels := chans1
        echo_buffer_offset := if echoIdx1 = 0 then 0 else offset1
        fir_buffer := firBuf1
        fir_buffer_index := firIdx1
        echo_index := if echoIdx1 = 0 then s.dsp.echo_delay else echoIdx1 } },
      if s.dsp.flags &&& 0x40 > 0 then ((0 : Int), (0 : Int)) else (outL, outR))

/-- Signed 8-bit addition overflow: the exact signed sum (with carry-in `c`)
    leaves the `i8` range. -/
def sAddOvf (u v c : Nat) : Prop :=
  toI8 u + toI8 v + c > 127 ∨ toI8 u + toI8 v + c < -128

/-- Signed 8-bit subtraction overflow: the exact signed difference leaves the
    `i8` range. -/
def sSubOvf (u v : Nat) : Prop :=
  toI8 u - toI8 v > 127 ∨ toI8 u - toI8 v < -128

instance (u v c : Nat) : Decidable (sAddOvf u v c) := by unfold sAddOvf; infer_instance

instance (u v : Nat) : Decidable (sSubOvf u v) := by unfold sSubOvf; infer_instance

/-- All envelope levels lie below `0x800`. -/
def gainInv (s : Spc700) : Prop := ∀ j, (s.dsp.channels j).gain < 0x800

/-- Every voice's rate-table entry for the `Gain` phase is zero. -/
def rateMapInv (s : Spc700) : Prop :=
  ∀ j, (s.dsp.channels j).period_rate_map AdsrPeriod.gain.toIdx = 0

/-- States reachable through the public operations: power-on, DSP register
    writes and sample cycles. -/
inductive Reachable : Spc700 → Prop where
  | power_on (tp : Nat × Nat) : Reachable (Spc700.new tp)
  | dsp_write (s s' : Spc700) (id val : Nat) :
      Reachable s → s.write_dsp_register id val = some s' → Reachable s'
  | sample (s s' : Spc700) (out : Int × Int) :
      Reachable s → s.sound_cycle = some (s', out) → Reachable s'

/-- A concrete power-on state used for witnesses. -/
def spc0 : Spc700 := Spc700.new (1, 1)

/-- A concrete decode buffer whose first four taps all hold `0x1000`. -/
def bufC9 : Nat → Int := fun j => if j < 4 then 0x1000 else 0

/-- `true` iff no single Gaussian table entry, applied to the sample value
    `0x1000` through the `>> 10` scaling and the final `>> 1`, yields the
    value `4098`. -/
def noSingleTapMatches : Bool :=
  gaussTable.all (fun g => sar (sar (g * 0x1000) 10) 1 != 4098)

/-- A concrete state whose RAM is all-zero (in particular `mem[0xf0] = 0`). -/
def sC8 : Spc700 := { spc0 with mem := fun _ => 0 }

/-- The result of one sample cycle on the power-on state (used as a concrete
    witness input; the power-on flags byte `$E0` has bit 5 set). -/
def spc0cyc : Spc700 × (Int × Int) := (spc0.sound_cycle).getD (spc0, (0, 0))

/-- The state after a DSP register write `$00 := $40` on the power-on state
    (a concrete witness input). -/
def spc0w : Spc700 := (spc0.write_dsp_register 0x00 0x40).getD spc0

lemma testBit6_setStatus_ov (st : Nat) (c : Bool) : (setStatus st c 64).testBit 6 = c := by
  cases c <;>
    simp [setStatus, Nat.testBit_lor, Nat.testBit_land,
      show (64 ^^^ 255 : Nat) = 191 from by decide,
      show Nat.testBit 191 6 = false from by decide,
      show Nat.testBit 64 6 = true from by decide]

lemma testBit6_setStatus_hc (st : Nat) (c : Bool) :
    (setStatus st c 8).testBit 6 = st.testBit 6 := by
  cases c <;>
    simp [setStatus, Nat.testBit_lor, Nat.testBit_land,
      show (8 ^^^ 255 : Nat) = 247 from by decide,
      show Nat.testBit 247 6 = true from by decide,
      show Nat.testBit 8 6 = false from by decide]

lemma testBit6_setStatus_carry (st : Nat) (c : Bool) :
    (setStatus st c 1).testBit 6 = st.testBit 6 := by
  cases c <;>
    simp [setStatus, Nat.testBit_lor, Nat.testBit_land,
      show (1 ^^^ 255 : Nat) = 254 from by decide,
      show Nat.testBit 254 6 = true from by decide,
      show Nat.testBit 1 6 = false from by decide]

lemma testBit6_updateNz8 (st v : Nat) : (updateNz8 st v).testBit 6 = st.testBit 6 := by
  unfold updateNz8
  split <;>
    simp [fZERO, fSIGN, Nat.testBit_lor, Nat.testBit_land,
      show ((2 ||| 128 : Nat) ^^^ 255) = 125 from by decide,
      show (128 ^^^ 255 : Nat) = 127 from by decide,
      show Nat.testBit 125 6 = true from by decide,
      show Nat.testBit 127 6 = true from by decide,
      show Nat.testBit 128 6 = false from by decide,
      show Nat.testBit 2 6 = false from by decide]

lemma testBit0_setStatus_carry (st : Nat) (c : Bool) : (setStatus st c 1).testBit 0 = c := by
  cases c <;>
    simp [setStatus, Nat.testBit_lor, Nat.testBit_land,
      show (1 ^^^ 255 : Nat) = 254 from by decide,
      show Nat.testBit 254 0 = false from by decide,
      show Nat.testBit 1 0 = true from by decide]

lemma and64_eq_of_testBit (st : Nat) : st &&& 64 = if st.testBit 6 then 64 else 0 := by
  have h := Nat.and_two_pow st 6
  norm_num at h
  rw [h]
  cases st.testBit 6 <;> simp

lemma lor_one_and_one (x : Nat) : (x ||| 1) &&& 1 = 1 := by simp

/-- C2: for every starting state of A, Y and the status register, executing
    the DIV opcode (`$9E`) with `X = 0` sets A to `$FF`, sets Y to the value A
    held before the instruction, and sets the Overflow flag. -/
theorem c2_div_by_zero (s : Spc700) (h : s.x = 0) :
    s.divInstr.a = 0xff ∧ s.divInstr.y = s.a ∧ s.divInstr.status &&& fOVERFLOW = fOVERFLOW := by
  refine ⟨?_, ?_, ?_⟩ <;> unfold Spc700.divInstr <;> simp only [h, if_pos]
  · decide
  · simp only [fOVERFLOW, fHALF_CARRY]
    rw [and64_eq_of_testBit, testBit6_updateNz8, testBit6_setStatus_hc, testBit6_setStatus_ov]
    norm_num

/-- C2 witness: the theorem applied at a concrete pre-state with
    `A = $37`, `X = 0`, `Y = $12`. -/
theorem c2_div_by_zero_witness :
    ({ spc0 with a := 0x37, x := 0, y := 0x12 } : Spc700).x = 0 ∧
      (({ spc0 with a := 0x37, x := 0, y := 0x12 } : Spc700).divInstr.a = 0xff ∧
        ({ spc0 with a := 0x37, x := 0, y := 0x12 } : Spc700).divInstr.y =
          ({ spc0 with a := 0x37, x := 0, y := 0x12 } : Spc700).a ∧
        ({ spc0 with a := 0x37, x := 0, y := 0x12 } : Spc700).divInstr.status &&& fOVERFLOW =
          fOVERFLOW) :=
  ⟨rfl, c2_div_by_zero _ rfl⟩

lemma iterate_preserves_mc (f : Spc700 → Spc700) (hf : ∀ t, (f t).master_cycles = t.master_cycles) :
    ∀ (k : Nat) (t : Spc700), (f^[k] t).master_cycles = t.master_cycles := by
  intro k
  induction k with
  | zero => intro t; simp
  | succ k ih => intro t; rw [Function.iterate_succ_apply, ih, hf]

/-- C4: `tick(n)` adds exactly `n` times the timing-ratio numerator (the
    component of the immutable timing pair that `tick` multiplies by, Rust
    `timing_proportion.1`) to the master-cycle accumulator, and `refresh()`
    executes `accumulator / denominator` (Rust `timing_proportion.0`)
    `run_cycle`s and leaves the accumulator holding `accumulator mod
    denominator`. -/
theorem c4_tick_refresh (s : Spc700) (n : Nat) (f : Spc700 → Spc700) :
    (s.tick n).master_cycles = s.master_cycles + n * s.timing_proportion.2 ∧
    Spc700.refresh f s =
      f^[s.master_cycles / s.timing_proportion.1]
        { s with master_cycles := s.master_cycles % s.timing_proportion.1 } ∧
    ((∀ t, (f t).master_cycles = t.master_cycles) →
      (Spc700.refresh f s).master_cycles = s.master_cycles % s.timing_proportion.1) := by
  refine ⟨rfl, rfl, fun hf => ?_⟩
  show (f^[s.master_cycles / s.timing_proportion.1] _).master_cycles = _
  rw [iterate_preserves_mc f hf]

/-- C4 witness: the theorem applied at a concrete state with 7 owed master
    cycles and the identity `run_cycle`. -/
theorem c4_tick_refresh_witness :
    (({ spc0 with master_cycles := 7 } : Spc700).tick 3).master_cycles =
      ({ spc0 with master_cycles := 7 } : Spc700).master_cycles +
        3 * ({ spc0 with master_cycles := 7 } : Spc700).timing_proportion.2 ∧
    (Spc700.refresh id { spc0 with master_cycles := 7 }).master_cycles =
      ({ spc0 with master_cycles := 7 } : Spc700).master_cycles %
        ({ spc0 with master_cycles := 7 } : Spc700).timing_proportion.1 :=
  ⟨(c4_tick_refresh { spc0 with master_cycles := 7 } 3 id).1,
   (c4_tick_refresh { spc0 with master_cycles := 7 } 3 id).2.2 (fun _ => rfl)⟩

/-- C7: for every state in which bit 5 (echo-write-disable) of the DSP flags
    register is set, executing one `sound_cycle` leaves the entire 64 KiB
    emulated RAM unchanged. -/
theorem c7_echo_write_disable (s s' : Spc700) (out : Int × Int)
    (h : s.dsp.flags &&& 0x20 ≠ 0) (hsc : s.sound_cycle = some (s', out)) :
    s'.mem = s.mem := by
  simp only [Spc700.sound_cycle] at hsc
  split at hsc
  · exact absurd hsc (by simp)
  · simp only [Option.some.injEq, Prod.mk.injEq] at hsc
    obtain ⟨hs', _⟩ := hsc
    rw [← hs']
    simp [if_neg h]

/-- C8 counterexample: the claim "every RAM byte equals its pre-reset value"
    fails at a state whose RAM is all-zero: `reset` writes `$80` to `$F0`. -/
theorem c8_reset_counterexample : (Spc700.reset sC8).mem 0xf0 ≠ sC8.mem 0xf0 := by
  simp [Spc700.reset, sC8, updateFn, spc0, Spc700.new]

/-- C8 (amended): `reset()` re-initializes the CPU registers and the
    mailboxes, sets the boot-ROM control byte `mem[$F0]` to `$80`, and leaves
    every other RAM byte unchanged. -/
theorem c8_reset_amended (s : Spc700) :
    s.reset.a = 0 ∧ s.reset.x = 0 ∧ s.reset.y = 0 ∧ s.reset.sp = 0 ∧
    s.reset.status = 0 ∧ s.reset.pc = 0xffc0 ∧
    (∀ i, s.reset.input i = 0 ∧ s.reset.output i = 0) ∧
    s.reset.mem 0xf0 = 0x80 ∧
    (∀ addr, addr ≠ 0xf0 → s.reset.mem addr = s.mem addr) := by
  refine ⟨rfl, rfl, rfl, rfl, rfl, rfl, fun i => ⟨rfl, rfl⟩, ?_, ?_⟩
  · simp [Spc700.reset, updateFn]
  · intro addr h
    simp [Spc700.reset, updateFn, h]

/-- C8 witness: a non-`$F0` RAM byte survives a reset of the power-on state. -/
theorem c8_reset_witness : spc0.reset.mem 0x1234 = spc0.mem 0x1234 :=
  (c8_reset_amended spc0).2.2.2.2.2.2.2.2 0x1234 (by decide)

/-- C1: a CPU read of `$00F4+i` returns `input[i]`, a CPU write to `$00F4+i`
    stores into `output[i]`; after the host writes byte `b` to `input[i]`
    (device address `$2140+i`), the next CPU read of `$00F4+i` returns `b`,
    and the host reads back a CPU-written byte from `output[i]`. -/
theorem c1_mailbox (s : Spc700) (i b : Nat) (h : i < 4) :
    s.read (0xf4 + i) = some (s.input i, s) ∧
    (s.write (0xf4 + i) b).map (fun s' => s'.output i) = some b ∧
    ((Device.hostWritePort s (0x2140 + i) b).read (0xf4 + i)).map Prod.fst = some b ∧
    (s.write (0xf4 + i) b).map (fun s' => Device.hostReadPort s' (0x2140 + i)) = some b := by
  interval_cases i <;>
    simp [Spc700.read, Spc700.write, Device.hostWritePort, Device.hostReadPort, updateFn,
      show (8512 &&& 3 : Nat) = 0 from by decide, show (8513 &&& 3 : Nat) = 1 from by decide,
      show (8514 &&& 3 : Nat) = 2 from by decide, show (8515 &&& 3 : Nat) = 3 from by decide]

/-- C1 witness: mailbox 2 with byte `$CC` on the power-on state. -/
theorem c1_mailbox_witness :
    spc0.read (0xf4 + 2) = some (spc0.input 2, spc0) ∧
    (spc0.write (0xf4 + 2) 0xcc).map (fun s' => s'.output 2) = some 0xcc ∧
    ((Device.hostWritePort spc0 (0x2140 + 2) 0xcc).read (0xf4 + 2)).map Prod.fst = some 0xcc ∧
    (spc0.write (0xf4 + 2) 0xcc).map (fun s' => Device.hostReadPort s' (0x2140 + 2)) = some 0xcc :=
  c1_mailbox spc0 2 0xcc (by decide)

lemma clampI16_bounds (x : Int) : -0x8000 ≤ clampI16 x ∧ clampI16 x ≤ 0x7fff := by
  unfold clampI16
  exact ⟨le_max_left _ _, max_le (by norm_num) (min_le_left _ _)⟩

lemma brrFilterClamped_bounds (header nibble : Nat) (old older : Int) :
    -0x8000 ≤ brrFilterClamped header nibble old older ∧
      brrFilterClamped header nibble old older ≤ 0x7fff := by
  unfold brrFilterClamped
  exact clampI16_bounds _

/-- C6 counterexample: for header `$C4` (shift 12, filter 1), nibble 7,
    previous sample `$3000`, the clamped filter output is `$6500 > $3FFF`,
    and the stored value is `$6500 - $8000 = -$1B00`, not
    `$6500 - $10000 = -$9B00` as the claim states. -/
theorem c6_wrap_counterexample :
    brrFilterClamped 0xC4 7 0x3000 0 = 0x6500 ∧
    decodeBrrSample 0xC4 7 0x3000 0 = -0x1b00 ∧
    (-0x1b00 : Int) ≠ 0x6500 - 0x10000 := by
  refine ⟨by decide, by decide, by decide⟩

/-- C6 (amended): after the filter result is clamped to signed 16 bits, a
    value greater than `$3FFF` is wrapped by subtracting `$8000` and a value
    less than `-$4000` is wrapped by adding `$8000` before being stored into
    the decode buffer; the stored value always lies in `-$4000..=$3FFF`. -/
theorem c6_brr_wrap_amended (header nibble : Nat) (old older : Int)
    (_hh : header < 256) (_hn : nibble < 16) :
    (brrFilterClamped header nibble old older > 0x3fff →
      decodeBrrSample header nibble old older =
        brrFilterClamped header nibble old older - 0x8000) ∧
    (brrFilterClamped header nibble old older < -0x4000 →
      decodeBrrSample header nibble old older =
        brrFilterClamped header nibble old older + 0x8000) ∧
    (-0x4000 ≤ brrFilterClamped header nibble old older ∧
        brrFilterClamped header nibble old older ≤ 0x3fff →
      decodeBrrSample header nibble old older = brrFilterClamped header nibble old older) ∧
    -0x4000 ≤ decodeBrrSample header nibble old older ∧
    decodeBrrSample header nibble old older ≤ 0x3fff := by
  obtain ⟨hlo, hhi⟩ := brrFilterClamped_bounds header nibble old older
  refine ⟨?_, ?_, ?_, ?_⟩
  · intro hgt
    unfold decodeBrrSample
    rw [if_pos hgt]
  · intro hlt
    unfold decodeBrrSample
    rw [if_neg (by omega), if_pos hlt]
  · intro ⟨ha, hb⟩
    unfold decodeBrrSample
    rw [if_neg (by omega), if_neg (by omega)]
  · simp only [decodeBrrSample]
    split_ifs <;> omega

/-- C6 witness: the amended wrap applied at the counterexample input. -/
theorem c6_wrap_witness :
    decodeBrrSample 0xC4 7 0x3000 0 = brrFilterClamped 0xC4 7 0x3000 0 - 0x8000 :=
  (c6_brr_wrap_amended 0xC4 7 0x3000 0 (by decide) (by decide)).1 (by decide)

set_option maxRecDepth 4000 in
/-- C9 counterexample: with phase 0 and all four taps holding `$1000`, the
    interpolation output is 4098, while scaling the current decode-buffer
    sample `$1000` by any single Gaussian table entry (through the `>> 10`
    and final `>> 1` of the pipeline) never yields 4098 (the largest such
    value is `2 * $519 = 2610`). -/
theorem c9_single_tap_counterexample :
    interpolate 0 bufC9 = 4098 ∧ noSingleTapMatches = true := by
  exact ⟨by decide, by decide⟩

/-- C9 (amended): with interpolation phase 0, the Gaussian step returns the
    `>> 1` of the clamped, truncated sum of three taps, weighted by the table
    entries at indices `$FF`, `$1FF` and `$100`; the fourth tap's coefficient
    is the table entry at index 0, which is zero, so it contributes nothing
    (the output is not a single-entry scaling of one sample). -/
theorem c9_phase_zero_amended (pc : Nat) (buf : Nat → Int)
    (h : (pc >>> 4) &&& 0xff = 0) :
    interpolate pc buf =
      sar (clampI16 (trunc16 (sar (gauss 0xff * buf (pc >>> 12)) 10
        + sar (gauss 0x1ff * buf (pc >>> 12 + 1)) 10
        + sar (gauss 0x100 * buf (pc >>> 12 + 2)) 10))) 1 := by
  simp only [interpolate, h]
  norm_num [show gauss 0 = (0 : Int) from rfl, show sar 0 10 = 0 from by decide]

/-- C9 witness: the amended statement at pitch counter 0 on a constant
    buffer. -/
theorem c9_phase_zero_witness :
    interpolate 0 (fun _ => (7 : Int)) =
      sar (clampI16 (trunc16 (sar (gauss 0xff * 7) 10 + sar (gauss 0x1ff * 7) 10
        + sar (gauss 0x100 * 7) 10))) 1 :=
  c9_phase_zero_amended 0 (fun _ => 7) (by decide)

set_option maxRecDepth 4000 in
/-- C7 witness: one sample cycle on the power-on state (echo writes
    disabled) leaves RAM untouched. -/
theorem c7_echo_write_disable_witness : spc0cyc.1.mem = spc0.mem :=
  c7_echo_write_disable spc0 spc0cyc.1 spc0cyc.2 (by decide) (by rfl)

set_option maxRecDepth 2000 in
lemma and128_eq : ∀ n < 256, n &&& 128 = if 128 ≤ n then 128 else 0 := by decide

set_option maxRecDepth 2000 in
lemma not8_eq : ∀ b < 256, not8 b = 255 - b := by decide

lemma ovCond_iff (a b c : Nat) (ha : a < 256) (hb : b < 256) (hc : c ≤ 1) :
    (((a &&& 0x80 == b &&& 0x80) && (b &&& 0x80 != ((a + b + c) % 256) &&& 0x80)) = true)
      ↔ sAddOvf a b c := by
  simp only [Bool.and_eq_true, beq_iff_eq, bne_iff_ne, ne_eq]
  rw [and128_eq a ha, and128_eq b hb, and128_eq ((a + b + c) % 256) (Nat.mod_lt _ (by norm_num))]
  simp only [sAddOvf, toI8, Nat.mod_eq_of_lt ha, Nat.mod_eq_of_lt hb]
  split_ifs <;> (try simp) <;> omega

lemma sAddOvf_not8_iff (r b : Nat) (hb : b < 256) : sAddOvf r (255 - b) 1 ↔ sSubOvf r b := by
  have h : toI8 (255 - b) = -toI8 b - 1 := by
    simp only [toI8]
    split_ifs <;> omega
  simp only [sAddOvf, sSubOvf, h]
  constructor <;> intro hh <;> omega

lemma adc8_snd (st a b : Nat) : (adc8 st a b).2 = ((a + b) % 256 + (st &&& fCARRY)) % 256 := rfl

lemma adc8_ovbit (st a b : Nat) :
    (adc8 st a b).1.testBit 6 =
      ((a &&& 0x80 == b &&& 0x80) &&
        (b &&& 0x80 != (((a + b) % 256 + (st &&& fCARRY)) % 256) &&& 0x80)) := by
  simp only [adc8, fOVERFLOW, fHALF_CARRY, fCARRY]
  rw [testBit6_updateNz8, testBit6_setStatus_carry, testBit6_setStatus_hc, testBit6_setStatus_ov]

lemma andOv_iff (st : Nat) : st &&& fOVERFLOW = fOVERFLOW ↔ st.testBit 6 = true := by
  simp only [fOVERFLOW]
  rw [and64_eq_of_testBit]
  cases h : st.testBit 6 <;> simp

/-- C3: for all 8-bit pairs `(a, b)`: ADC of `a` and `b` with Carry seeded
    clear, followed by SBC (`adc` of the complement) of the 8-bit result and
    `b` with Carry seeded set, returns `a`; and in each step the Overflow
    flag is set iff signed two's-complement overflow occurred in that step. -/
theorem c3_adc_sbc_roundtrip (a b st : Nat) (ha : a < 256) (hb : b < 256)
    (hst : st &&& fCARRY = 0) :
    (adc8 ((adc8 st a b).1 ||| fCARRY) (adc8 st a b).2 (not8 b)).2 = a ∧
    ((adc8 st a b).1 &&& fOVERFLOW = fOVERFLOW ↔ sAddOvf a b 0) ∧
    ((adc8 ((adc8 st a b).1 ||| fCARRY) (adc8 st a b).2 (not8 b)).1 &&& fOVERFLOW = fOVERFLOW
      ↔ sSubOvf (adc8 st a b).2 b) := by
  have hr1 : (adc8 st a b).2 = (a + b) % 256 := by
    rw [adc8_snd]
    omega
  have hc1 : ((adc8 st a b).1 ||| fCARRY) &&& fCARRY = 1 := by
    simp only [fCARRY]
    exact lor_one_and_one _
  refine ⟨?_, ?_, ?_⟩
  · rw [adc8_snd, hc1, hr1, not8_eq b hb]
    omega
  · rw [andOv_iff, adc8_ovbit]
    have hbridge : ((a + b) % 256 + (st &&& fCARRY)) % 256 = (a + b + 0) % 256 := by
      omega
    rw [hbridge]
    exact ovCond_iff a b 0 ha hb (by norm_num)
  · rw [andOv_iff, adc8_ovbit, hc1, hr1, not8_eq b hb]
    have hbridge : (((a + b) % 256 + (255 - b)) % 256 + 1) % 256 =
        ((a + b) % 256 + (255 - b) + 1) % 256 := by
      omega
    rw [hbridge]
    rw [ovCond_iff ((a + b) % 256) (255 - b) 1 (Nat.mod_lt _ (by norm_num)) (by omega) (by norm_num)]
    exact sAddOvf_not8_iff ((a + b) % 256) b hb

/-- C3 witness: the round trip at `a = 200`, `b = 100`, status `$42`. -/
theorem c3_adc_sbc_roundtrip_witness :
    ((200 : Nat) < 256) ∧ ((100 : Nat) < 256) ∧ ((0x42 : Nat) &&& fCARRY = 0) ∧
    ((adc8 ((adc8 0x42 200 100).1 ||| fCARRY) (adc8 0x42 200 100).2 (not8 100)).2 = 200 ∧
      ((adc8 0x42 200 100).1 &&& fOVERFLOW = fOVERFLOW ↔ sAddOvf 200 100 0) ∧
      ((adc8 ((adc8 0x42 200 100).1 ||| fCARRY) (adc8 0x42 200 100).2 (not8 100)).1 &&& fOVERFLOW
          = fOVERFLOW ↔ sSubOvf (adc8 0x42 200 100).2 100)) :=
  ⟨by decide, by decide, by decide, c3_adc_sbc_roundtrip 200 100 0x42 (by decide) (by decide) (by decide)⟩

lemma update_gain_lt (ch : Channel) (rate : Nat) (h : ch.gain < 0x800) (ch' : Channel)
    (he : ch.update_gain rate = some ch') : ch'.gain < 0x800 := by
  unfold Channel.update_gain at he
  cases hp : ch.period <;> rw [hp] at he <;>
    simp only [Option.some.injEq, reduceCtorEq] at he
  case attack =>
    rw [← he]
    simp only
    omega
  case decay =>
    rw [← he]
    simp only
    omega
  case sustain =>
    rw [← he]
    simp only
    omega

lemma update_gain_keeps_rateMap (ch : Channel) (rate : Nat) (ch' : Channel)
    (he : ch.update_gain rate = some ch') : ch'.period_rate_map = ch.period_rate_map := by
  unfold Channel.update_gain at he
  cases hp : ch.period <;> rw [hp] at he <;>
    simp only [Option.some.injEq, reduceCtorEq] at he <;> rw [← he]

lemma envelopeStep_lt (ch : Channel) (h : ch.gain < 0x800) (ch' : Channel)
    (he : envelopeStep ch = some ch') : ch'.gain < 0x800 := by
  unfold envelopeStep at he
  by_cases h1 : ch.period = AdsrPeriod.release
  · rw [if_pos h1] at he
    simp only [Option.some.injEq] at he
    rw [← he]
    simp only
    split_ifs <;> omega
  · rw [if_neg h1] at he
    by_cases h2 : ch.gain_mode &&& 0x80 = 0 ∧ ch.adsr0 &&& 0x80 = 0
    · rw [if_pos h2] at he
      simp only [Option.some.injEq] at he
      rw [← he]
      simp only
      have := Nat.and_le_right (n := ch.gain_mode) (m := 0x7f)
      omega
    · rw [if_neg h2] at he
      by_cases h3 : ch.period_rate_map ch.period.toIdx > 0
      · rw [if_pos h3] at he
        by_cases h4 : (ch.rate_index + 1) % 65536 ≥ ch.period_rate_map ch.period.toIdx
        · rw [if_pos h4] at he
          exact update_gain_lt _ _ (by exact h) _ he
        · rw [if_neg h4] at he
          simp only [Option.some.injEq] at he
          rw [← he]
          exact h
      · rw [if_neg h3] at he
        simp only [Option.some.injEq] at he
        rw [← he]
        exact h

lemma envelopeStep_keeps_rateMap (ch : Channel) (ch' : Channel)
    (he : envelopeStep ch = some ch') : ch'.period_rate_map = ch.period_rate_map := by
  unfold envelopeStep at he
  by_cases h1 : ch.period = AdsrPeriod.release
  · rw [if_pos h1] at he
    simp only [Option.some.injEq] at he
    rw [← he]
  · rw [if_neg h1] at he
    by_cases h2 : ch.gain_mode &&& 0x80 = 0 ∧ ch.adsr0 &&& 0x80 = 0
    · rw [if_pos h2] at he
      simp only [Option.some.injEq] at he
      rw [← he]
    · rw [if_neg h2] at he
      by_cases h3 : ch.period_rate_map ch.period.toIdx > 0
      · rw [if_pos h3] at he
        by_cases h4 : (ch.rate_index + 1) % 65536 ≥ ch.period_rate_map ch.period.toIdx
        · rw [if_pos h4] at he
          rw [update_gain_keeps_rateMap _ _ _ he]
        · rw [if_neg h4] at he
          simp only [Option.some.injEq] at he
          rw [← he]
      · rw [if_neg h3] at he
        simp only [Option.some.injEq] at he
        rw [← he]

lemma envelopeStep_isSome (ch : Channel) (h : ch.period_rate_map 3 = 0) :
    (envelopeStep ch).isSome = true := by
  unfold envelopeStep
  by_cases h1 : ch.period = AdsrPeriod.release
  · rw [if_pos h1]
    simp
  · rw [if_neg h1]
    by_cases h2 : ch.gain_mode &&& 0x80 = 0 ∧ ch.adsr0 &&& 0x80 = 0
    · rw [if_pos h2]
      simp
    · rw [if_neg h2]
      by_cases h3 : ch.period_rate_map ch.period.toIdx > 0
      · rw [if_pos h3]
        by_cases h4 : (ch.rate_index + 1) % 65536 ≥ ch.period_rate_map ch.period.toIdx
        · rw [if_pos h4]
          cases hp : ch.period
          · simp [Channel.update_gain, hp]
          · simp [Channel.update_gain, hp]
          · simp [Channel.update_gain, hp]
          · rw [hp] at h3
            simp only [AdsrPeriod.toIdx] at h3
            omega
          · exact absurd hp h1
        · rw [if_neg h4]
          simp
      · rw [if_neg h3]
        simp

lemma keyPhase_gain_lt (mem : Nat → Nat) (fi fo i : Nat) (ch : Channel)
    (h : ch.gain < 0x800) : (keyPhase mem fi fo i ch).gain < 0x800 := by
  simp only [keyPhase]
  split_ifs <;> (try simp) <;> omega

lemma keyPhase_keeps_rateMap (mem : Nat → Nat) (fi fo i : Nat) (ch : Channel) :
    (keyPhase mem fi fo i ch).period_rate_map = ch.period_rate_map := by
  simp only [keyPhase]
  split_ifs <;> rfl

lemma brrAdvance_gain_lt (mem : Nat → Nat) (ch : Channel)
    (h : ch.gain < 0x800) : (brrAdvance mem ch).gain < 0x800 := by
  simp only [brrAdvance]
  split_ifs <;> (try simp) <;> omega

lemma brrAdvance_keeps_rateMap (mem : Nat → Nat) (ch : Channel) :
    (brrAdvance mem ch).period_rate_map = ch.period_rate_map := by
  simp only [brrAdvance]
  split_ifs <;> rfl

lemma channelPre_gain_lt (mem : Nat → Nat) (pmod fi fo i : Nat) (last : Int) (ch0 : Channel)
    (h : ch0.gain < 0x800) : (channelPre mem pmod fi fo i last ch0).gain < 0x800 := by
  simp only [channelPre]
  split_ifs <;>
    first
      | exact brrAdvance_gain_lt _ _ (by exact keyPhase_gain_lt _ _ _ _ _ h)
      | (show (keyPhase mem fi fo i ch0).gain < 0x800
         exact keyPhase_gain_lt _ _ _ _ _ h)

lemma channelPre_keeps_rateMap (mem : Nat → Nat) (pmod fi fo i : Nat) (last : Int)
    (ch0 : Channel) :
    (channelPre mem pmod fi fo i last ch0).period_rate_map = ch0.period_rate_map := by
  simp only [channelPre]
  split_ifs <;>
    first
      | (rw [brrAdvance_keeps_rateMap]
         show (keyPhase mem fi fo i ch0).period_rate_map = ch0.period_rate_map
         exact keyPhase_keeps_rateMap _ _ _ _ _)
      | (show (keyPhase mem fi fo i ch0).period_rate_map = ch0.period_rate_map
         exact keyPhase_keeps_rateMap _ _ _ _ _)

lemma channelStep_gain (mem : Nat → Nat) (pmod fi fo i : Nat) (last : Int) (ch0 : Channel)
    (h : ch0.gain < 0x800) (ch' : Channel) (smp : Int)
    (he : channelStep mem pmod fi fo i last ch0 = some (ch', smp)) : ch'.gain < 0x800 := by
  simp only [channelStep] at he
  split at he
  · exact absurd he (by simp)
  case _ ch4 heq =>
    simp only [Option.some.injEq, Prod.mk.injEq] at he
    obtain ⟨hch, _⟩ := he
    rw [← hch]
    show ch4.gain < 0x800
    exact envelopeStep_lt _ (channelPre_gain_lt _ _ _ _ _ _ _ h) _ heq

lemma channelStep_keeps_rateMap (mem : Nat → Nat) (pmod fi fo i : Nat) (last : Int)
    (ch0 : Channel) (ch' : Channel) (smp : Int)
    (he : channelStep mem pmod fi fo i last ch0 = some (ch', smp)) :
    ch'.period_rate_map = ch0.period_rate_map := by
  simp only [channelStep] at he
  split at he
  · exact absurd he (by simp)
  case _ ch4 heq =>
    simp only [Option.some.injEq, Prod.mk.injEq] at he
    obtain ⟨hch, _⟩ := he
    rw [← hch]
    show ch4.period_rate_map = _
    rw [envelopeStep_keeps_rateMap _ _ heq]
    exact channelPre_keeps_rateMap _ _ _ _ _ _ _

lemma channelStep_isSome (mem : Nat → Nat) (pmod fi fo i : Nat) (last : Int) (ch0 : Channel)
    (h : ch0.period_rate_map 3 = 0) :
    (channelStep mem pmod fi fo i last ch0).isSome = true := by
  simp only [channelStep]
  have hb : (channelPre mem pmod fi fo i last ch0).period_rate_map 3 = 0 := by
    rw [channelPre_keeps_rateMap]
    exact h
  have hsome := envelopeStep_isSome _ hb
  obtain ⟨ch4, h4⟩ := Option.isSome_iff_exists.mp hsome
  rw [h4]
  simp

lemma runChannels_gain (mem : Nat → Nat) (pmod fi fo : Nat) (l : List Nat) :
    ∀ (chans : Nat → Channel) (last : Int) (acc : Int × Int)
      (chans' : Nat → Channel) (acc' : Int × Int),
      (∀ j, (chans j).gain < 0x800) →
      runChannels mem pmod fi fo l chans last acc = some (chans', acc') →
      ∀ j, (chans' j).gain < 0x800 := by
  induction l with
  | nil =>
    intro chans last acc chans' acc' h he
    simp only [runChannels, Option.some.injEq, Prod.mk.injEq] at he
    obtain ⟨h1, _⟩ := he
    rw [← h1]
    exact h
  | cons i rest ih =>
    intro chans last acc chans' acc' h he
    simp only [runChannels] at he
    split at he
    · exact absurd he (by simp)
    case _ p hp =>
      refine ih _ _ _ _ _ ?_ he
      intro j
      simp only [updateFn]
      split
      · exact channelStep_gain _ _ _ _ _ _ _ (h i) _ _ hp
      · exact h j

lemma runChannels_rateMap_isSome (mem : Nat → Nat) (pmod fi fo : Nat) (l : List Nat) :
    ∀ (chans : Nat → Channel) (last : Int) (acc : Int × Int),
      (∀ j, (chans j).period_rate_map 3 = 0) →
      (runChannels mem pmod fi fo l chans last acc).isSome = true ∧
        (∀ (chans' : Nat → Channel) (acc' : Int × Int),
          runChannels mem pmod fi fo l chans last acc = some (chans', acc') →
          ∀ j, (chans' j).period_rate_map 3 = 0) := by
  induction l with
  | nil =>
    intro chans last acc h
    refine ⟨by simp [runChannels], ?_⟩
    intro chans' acc' he
    simp only [runChannels, Option.some.injEq, Prod.mk.injEq] at he
    obtain ⟨h1, _⟩ := he
    rw [← h1]
    exact h
  | cons i rest ih =>
    intro chans last acc h
    have hstep := channelStep_isSome mem pmod fi fo i last (chans i) (h i)
    obtain ⟨⟨ch', smp⟩, hsome⟩ := Option.isSome_iff_exists.mp hstep
    have hinv : ∀ j, ((updateFn chans i ch') j).period_rate_map 3 = 0 := by
      intro j
      simp only [updateFn]
      split
      · rw [channelStep_keeps_rateMap _ _ _ _ _ _ _ _ _ hsome]
        exact h i
      · exact h j
    constructor
    · simp only [runChannels, hsome]
      exact (ih _ _ _ hinv).1
    · intro chans' acc' he
      simp only [runChannels, hsome] at he
      exact (ih _ _ _ hinv).2 _ _ he

set_option maxHeartbeats 1000000 in
lemma writeDspChannelReg_keeps (sda : Nat) (ch : Channel) (rid val : Nat) (ch' : Channel)
    (he : writeDspChannelReg sda ch rid val = some ch') :
    ch'.gain = ch.gain ∧ ch'.period_rate_map 3 = ch.period_rate_map 3 := by
  simp only [writeDspChannelReg] at he
  by_cases h0 : rid = 0
  · rw [if_pos h0] at he
    simp only [Option.some.injEq] at he
    subst he
    exact ⟨rfl, rfl⟩
  · rw [if_neg h0] at he
    by_cases h1 : rid = 1
    · rw [if_pos h1] at he
      simp only [Option.some.injEq] at he
      subst he
      exact ⟨rfl, rfl⟩
    · rw [if_neg h1] at he
      by_cases h2 : rid = 2
      · rw [if_pos h2] at he
        simp only [Option.some.injEq] at he
        subst he
        exact ⟨rfl, rfl⟩
      · rw [if_neg h2] at he
        by_cases h3 : rid = 3
        · rw [if_pos h3] at he
          simp only [Option.some.injEq] at he
          subst he
          exact ⟨rfl, rfl⟩
        · rw [if_neg h3] at he
          by_cases h4 : rid = 4
          · rw [if_pos h4] at he
            simp only [Option.some.injEq] at he
            subst he
            exact ⟨rfl, rfl⟩
          · rw [if_neg h4] at he
            by_cases h5 : rid = 5
            · rw [if_pos h5] at he
              simp only [Option.some.injEq] at he
              subst he
              refine ⟨rfl, ?_⟩
              simp [updateFn, AdsrPeriod.toIdx]
            · rw [if_neg h5] at he
              by_cases h6 : rid = 6
              · rw [if_pos h6] at he
                simp only [Option.some.injEq] at he
                subst he
                refine ⟨rfl, ?_⟩
                simp [updateFn, AdsrPeriod.toIdx]
              · rw [if_neg h6] at he
                by_cases h7 : rid = 7
                · rw [if_pos h7] at he
                  simp only [Option.some.injEq] at he
                  subst he
                  exact ⟨rfl, rfl⟩
                · rw [if_neg h7] at he
                  by_cases h8 : rid = 8
                  · rw [if_pos h8] at he
                    simp only [Option.some.injEq] at he
                    subst he
                    exact ⟨rfl, rfl⟩
                  · rw [if_neg h8] at he
                    by_cases h9 : rid = 9
                    · rw [if_pos h9] at he
                      simp only [Option.some.injEq] at he
                      subst he
                      exact ⟨rfl, rfl⟩
                    · rw [if_neg h9] at he
                      by_cases h10 : rid = 10
                      · rw [if_pos h10] at he
                        simp only [Option.some.injEq] at he
                        subst he
                        exact ⟨rfl, rfl⟩
                      · rw [if_neg h10] at he
                        by_cases h11 : rid = 11
                        · rw [if_pos h11] at he
                          simp only [Option.some.injEq] at he
                          subst he
                          exact ⟨rfl, rfl⟩
                        · rw [if_neg h11] at he
                          by_cases h12 : rid = 14
                          · rw [if_pos h12] at he
                            simp only [Option.some.injEq] at he
                            subst he
                            exact ⟨rfl, rfl⟩
                          · rw [if_neg h12] at he
                            by_cases h13 : rid = 15
                            · rw [if_pos h13] at he
                              simp only [Option.some.injEq] at he
                              subst he
                              exact ⟨rfl, rfl⟩
                            · rw [if_neg h13] at he
                              exact absurd he (by simp)

set_option maxHeartbeats 1000000 in
lemma write_dsp_keeps_channels (s : Spc700) (id val : Nat) (s' : Spc700)
    (he : s.write_dsp_register id val = some s') :
    ∀ j, (s'.dsp.channels j).gain = (s.dsp.channels j).gain ∧
      (s'.dsp.channels j).period_rate_map 3 = (s.dsp.channels j).period_rate_map 3 := by
  simp only [Spc700.write_dsp_register] at he
  by_cases hb : (id &&& 0x8f) &&& 0xe ≠ 0xc
  · rw [if_pos hb] at he
    by_cases h80 : id ≥ 0x80
    · rw [if_pos h80] at he
      exact absurd he (by simp)
    · rw [if_neg h80] at he
      rw [Option.map_eq_some'] at he
      obtain ⟨ch2, hch, hs⟩ := he
      obtain ⟨hg, hm⟩ := writeDspChannelReg_keeps _ _ _ _ _ hch
      subst hs
      intro j
      constructor <;> simp only [updateFn] <;> split <;> simp_all
  · rw [if_neg hb] at he
    by_cases h0 : id = 0x0c
    · rw [if_pos h0] at he
      simp only [Option.some.injEq] at he
      subst he
      intro j
      exact ⟨rfl, rfl⟩
    · rw [if_neg h0] at he
      by_cases h1 : id = 0x1c
      · rw [if_pos h1] at he
        simp only [Option.some.injEq] at he
        subst he
        intro j
        exact ⟨rfl, rfl⟩
      · rw [if_neg h1] at he
        by_cases h2 : id = 0x2c
        · rw [if_pos h2] at he
          simp only [Option.some.injEq] at he
          subst he
          intro j
          exact ⟨rfl, rfl⟩
        · rw [if_neg h2] at he
          by_cases h3 : id = 0x3c
          · rw [if_pos h3] at he
            simp only [Option.some.injEq] at he
            subst he
            intro j
            exact ⟨rfl, rfl⟩
          · rw [if_neg h3] at he
            by_cases h4 : id = 0x4c
            · rw [if_pos h4] at he
              simp only [Option.some.injEq] at he
              subst he
              intro j
              exact ⟨rfl, rfl⟩
            · rw [if_neg h4] at he
              by_cases h5 : id = 0x5c
              · rw [if_pos h5] at he
                simp only [Option.some.injEq] at he
                subst he
                intro j
                exact ⟨rfl, rfl⟩
              · rw [if_neg h5] at he
                by_cases h6 : id = 0x6c
                · rw [if_pos h6] at he
                  simp only [Option.some.injEq] at he
                  subst he
                  intro j
                  exact ⟨rfl, rfl⟩
                · rw [if_neg h6] at he
                  by_cases h7 : id = 0x0d
                  · rw [if_pos h7] at he
                    simp only [Option.some.injEq] at he
                    subst he
                    intro j
                    exact ⟨rfl, rfl⟩
                  · rw [if_neg h7] at he
                    by_cases h8 : id = 0x1d
                    · rw [if_pos h8] at he
                      simp only [Option.some.injEq] at he
                      subst he
                      intro j
                      exact ⟨rfl, rfl⟩
                    · rw [if_neg h8] at he
                      by_cases h9 : id = 0x2d
                      · rw [if_pos h9] at he
                        simp only [Option.some.injEq] at he
                        subst he
                        intro j
                        exact ⟨rfl, rfl⟩
                      · rw [if_neg h9] at he
                        by_cases h10 : id = 0x3d
                        · rw [if_pos h10] at he
                          simp only [Option.some.injEq] at he
                          subst he
                          intro j
                          exact ⟨rfl, rfl⟩
                        · rw [if_neg h10] at he
                          by_cases h11 : id = 0x4d
                          · rw [if_pos h11] at he
                            simp only [Option.some.injEq] at he
                            subst he
                            intro j
                            exact ⟨rfl, rfl⟩
                          · rw [if_neg h11] at he
                            by_cases h12 : id = 0x5d
                            · rw [if_pos h12] at he
                              simp only [Option.some.injEq] at he
                              subst he
                              intro j
                              exact ⟨rfl, rfl⟩
                            · rw [if_neg h12] at he
                              by_cases h13 : id = 0x6d
                              · rw [if_pos h13] at he
                                simp only [Option.some.injEq] at he
                                subst he
                                intro j
                                exact ⟨rfl, rfl⟩
                              · rw [if_neg h13] at he
                                by_cases h14 : id = 0x7d
                                · rw [if_pos h14] at he
                                  simp only [Option.some.injEq] at he
                                  subst he
                                  intro j
                                  exact ⟨rfl, rfl⟩
                                · rw [if_neg h14] at he
                                  exact absurd he (by simp)

lemma sound_cycle_gainInv (s s' : Spc700) (out : Int × Int) (h : gainInv s)
    (he : s.sound_cycle = some (s', out)) : gainInv s' := by
  simp only [Spc700.sound_cycle] at he
  split at he
  · exact absurd he (by simp)
  case _ chans1 voiceAcc hp =>
    simp only [Option.some.injEq, Prod.mk.injEq] at he
    obtain ⟨hs, _⟩ := he
    intro j
    rw [← hs]
    show (chans1 j).gain < 0x800
    refine runChannels_gain _ _ _ _ _ _ _ _ _ _ ?_ hp j
    intro k
    split_ifs
    · show ((s.dsp.channels k).resetChannel).gain < 0x800
      simp [Channel.resetChannel]
    · exact h k

lemma sound_cycle_rate_isSome (s : Spc700)
    (h : ∀ j, (s.dsp.channels j).period_rate_map 3 = 0) :
    (s.sound_cycle).isSome = true := by
  simp only [Spc700.sound_cycle]
  have hinv : ∀ j, ((if s.dsp.flags &&& 0x80 > 0
      then fun k => (s.dsp.channels k).resetChannel
      else s.dsp.channels) j).period_rate_map 3 = 0 := by
    intro j
    split_ifs
    · show ((s.dsp.channels j).resetChannel).period_rate_map 3 = 0
      exact h j
    · exact h j
  have hrun := (runChannels_rateMap_isSome s.mem s.dsp.pitch_modulation
      (if s.dispatch_counter &&& 0x3f > 0 then s.dsp.fade_in else 0)
      (if s.dispatch_counter &&& 0x3f > 0 then s.dsp.fade_out else 0)
      [0, 1, 2, 3, 4, 5, 6, 7] _ 0 (0, 0) hinv).1
  obtain ⟨⟨chans1, acc⟩, hp⟩ := Option.isSome_iff_exists.mp hrun
  rw [hp]
  simp

lemma sound_cycle_rateMap_pres (s s' : Spc700) (out : Int × Int)
    (h : ∀ j, (s.dsp.channels j).period_rate_map 3 = 0)
    (he : s.sound_cycle = some (s', out)) :
    ∀ j, (s'.dsp.channels j).period_rate_map 3 = 0 := by
  simp only [Spc700.sound_cycle] at he
  split at he
  · exact absurd he (by simp)
  case _ chans1 voiceAcc hp =>
    simp only [Option.some.injEq, Prod.mk.injEq] at he
    obtain ⟨hs, _⟩ := he
    intro j
    rw [← hs]
    show (chans1 j).period_rate_map 3 = 0
    refine (runChannels_rateMap_isSome _ _ _ _ _ _ _ _ ?_).2 _ _ hp j
    intro k
    split_ifs
    · show ((s.dsp.channels k).resetChannel).period_rate_map 3 = 0
      exact h k
    · exact h k

/-- C5: the envelope level of every voice lies below `$800` after power-on,
    and staying below `$800` is an invariant preserved by `update_gain`,
    `write_dsp_register` and `sound_cycle`; in the Attack phase each
    rate-tick adds 1024 when the rate is 1 and 32 otherwise, saturating at
    `$7FF`. -/
theorem c5_gain_invariant :
    (∀ (tp : Nat × Nat) (j : Nat), ((Spc700.new tp).dsp.channels j).gain < 0x800) ∧
    (∀ (ch : Channel) (rate : Nat) (ch' : Channel),
      ch.gain < 0x800 → ch.update_gain rate = some ch' → ch'.gain < 0x800) ∧
    (∀ (s : Spc700) (id val : Nat) (s' : Spc700),
      gainInv s → s.write_dsp_register id val = some s' → gainInv s') ∧
    (∀ (s s' : Spc700) (out : Int × Int),
      gainInv s → s.sound_cycle = some (s', out) → gainInv s') ∧
    (∀ (ch : Channel) (rate : Nat), ch.period = AdsrPeriod.attack → ch.gain < 0x800 →
      (ch.update_gain rate).map Channel.gain =
        some (min (ch.gain + if rate = 1 then 1024 else 32) 0x7ff)) := by
  refine ⟨?_, ?_, ?_, ?_, ?_⟩
  · intro tp j
    show (0 : Nat) < 0x800
    norm_num
  · exact fun ch rate ch' h he => update_gain_lt ch rate h ch' he
  · intro s id val s' h he j
    rw [(write_dsp_keeps_channels s id val s' he j).1]
    exact h j
  · exact sound_cycle_gainInv
  · intro ch rate hp h
    unfold Channel.update_gain
    rw [hp]
    simp only [Option.map_some']
    congr 1
    by_cases hr : rate = 1 <;> simp [hr]

/-- C5 witness: the conjuncts applied at the power-on state, a fresh channel
    (Attack phase, rate 2), a DSP register write and a sample cycle on the
    power-on state. -/
theorem c5_gain_invariant_witness :
    ((Spc700.new (1, 1)).dsp.channels 0).gain < 0x800 ∧
    (Channel.new.update_gain 2).map Channel.gain =
      some (min (Channel.new.gain + if 2 = 1 then 1024 else 32) 0x7ff) ∧
    gainInv spc0w ∧ gainInv spc0cyc.1 := by
  have g0 : gainInv spc0 := fun j => by
    show (0 : Nat) < 0x800
    norm_num
  exact ⟨c5_gain_invariant.1 (1, 1) 0,
    c5_gain_invariant.2.2.2.2 Channel.new 2 rfl (by decide),
    c5_gain_invariant.2.2.1 spc0 0x00 0x40 spc0w g0 (by rfl),
    c5_gain_invariant.2.2.2.1 spc0 spc0cyc.1 spc0cyc.2 g0 (by rfl)⟩

/-- C10: in every state reachable through the public operations (power-on,
    DSP register writes, sample cycles), each voice's `period_rate_map`
    entry for the `Gain` phase is zero, and `sound_cycle` never panics (in
    particular `update_gain` is never invoked in the `Gain` phase, whose
    arm is a `todo!`). -/
theorem c10_gain_phase_unreachable (s : Spc700) (h : Reachable s) :
    rateMapInv s ∧ (s.sound_cycle).isSome = true := by
  have hmain : rateMapInv s := by
    induction h with
    | power_on tp => intro j; rfl
    | dsp_write s1 s1' id val hr he ih =>
      intro j
      show (s1'.dsp.channels j).period_rate_map 3 = 0
      rw [(write_dsp_keeps_channels s1 id val s1' he j).2]
      exact ih j
    | sample s1 s1' out hr he ih =>
      intro j
      show (s1'.dsp.channels j).period_rate_map 3 = 0
      exact sound_cycle_rateMap_pres s1 s1' out (fun k => ih k) he j
  exact ⟨hmain, sound_cycle_rate_isSome s (fun j => hmain j)⟩

/-- C10 witness: the power-on state is reachable; its rate maps are zero at
    the Gain entry and its sample cycle succeeds. -/
theorem c10_gain_phase_unreachable_witness :
    rateMapInv spc0 ∧ (spc0.sound_cycle).isSome = true :=
  c10_gain_phase_unreachable spc0 (Reachable.power_on (1, 1))
